import Mathlib

/-!
Verification of the transcript-fetching web application (`app.py`).

The development shallowly embeds the program's pure logic:
* Python string primitives (`split`, `in`, `startswith`, `strip`) modelled
  over `List Char` / `String`;
* the video-identifier resolver of `get_youtube_transcript` (lines 24-40);
* the transcript-track selection cascade (lines 42-66), with the external
  provider library's lookup methods modelled as list searches;
* the segment-flattening loop with its per-segment exception handling
  (lines 70-96);
* the POST request handler `index` (lines 124-190), with the filesystem
  modelled as injected directory/write behaviour.
-/

/-- Index of the first occurrence of `sep` in `l` (as Python `str.find`
for a needle that occurs; `none` when it does not occur). -/
def occursAt (sep l : List Char) : Option Nat :=
  (List.range (l.length + 1)).find? (fun i => sep.isPrefixOf (l.drop i))

/-- Fuel-driven splitter on character lists, mirroring Python
`str.split(sep)` for a non-empty separator. -/
def pySplitAux (sep : List Char) : Nat → List Char → List (List Char)
  | 0, l => [l]
  | fuel+1, l =>
    match occursAt sep l with
    | none => [l]
    | some i => l.take i :: pySplitAux sep fuel (l.drop (i + sep.length))

/-- Model of Python `s.split(sep)` for non-empty `sep`. -/
def pySplit (sep s : String) : List String :=
  (pySplitAux sep.data (s.data.length + 1) s.data).map String.mk

/-- Model of Python `sub in s` (substring containment). -/
def pyContains (sub s : String) : Bool :=
  (occursAt sub.data s.data).isSome

/-- Model of Python `s.startswith(sub)`. -/
def pyStartsWith (sub s : String) : Bool :=
  sub.data.isPrefixOf s.data

/-- Strip leading and trailing whitespace from a character list. -/
def stripList (l : List Char) : List Char :=
  (((l.dropWhile Char.isWhitespace).reverse.dropWhile Char.isWhitespace)).reverse

/-- Model of Python `s.strip()`. -/
def pyStrip (s : String) : String :=
  String.mk (stripList s.data)

/-- Model of the Python slice `s[1:]`. -/
def pyDrop1 (s : String) : String :=
  String.mk (s.data.drop 1)

/-- The plausible-bare-identifier test of line 32: all characters
alphanumeric, `-` or `_`, and length exactly 11. -/
def isPlausibleId (s : String) : Bool :=
  s.data.all (fun c => c.isAlphanum || c == '-' || c == '_') && s.length == 11

/-- The identifier resolver of `get_youtube_transcript` (lines 24-36):
`some vid` when a video id is extracted (possibly the empty string, from a
degenerate URL), `none` for the invalid-format case of line 36. -/
def extractVideoId (s : String) : Option String :=
  if pyContains "youtube.com/watch?v=" s then
    some (((pySplit "&" ((pySplit "v=" s).getD 1 ""))).headD "")
  else if pyContains "youtu.be/" s then
    some (((pySplit "?" ((pySplit "/" s).getLastD ""))).headD "")
  else if pyContains "youtube.com/shorts/" s then
    some (((pySplit "?" ((pySplit "shorts/" s).getD 1 ""))).headD "")
  else if isPlausibleId s then
    some s
  else
    none

/-- Behaviour of one transcript segment under the access pattern of the
flattening loop (lines 71-94).  Each constructor names the code path the
segment takes:
* `mappingText s` — `entry['text']` succeeds with `s`;
* `mappingKeyMissing` — `entry['text']` raises `KeyError`;
* `attrText s` — `entry['text']` raises a not-subscriptable `TypeError`,
  `entry.text` exists and yields `s`;
* `attrFailure` — not subscriptable, `entry.text` exists but accessing or
  concatenating it raises;
* `noTextField` — not subscriptable and no `text` attribute;
* `strangeTypeError m` — `entry['text']` raises a `TypeError` whose
  message (`m`) does not contain "is not subscriptable" (re-raised at
  line 88, aborting the loop);
* `raisesOther` — `entry['text']` raises some other exception
  (caught at line 92). -/
inductive TranscriptSegment where
  | mappingText (s : String)
  | mappingKeyMissing
  | attrText (s : String)
  | attrFailure
  | noTextField
  | strangeTypeError (m : String)
  | raisesOther
deriving DecidableEq

/-- One transcript track as exposed by the external provider: language
code, human-readable language name, manual-vs-generated flag, and the
segments that `fetch()` returns for it. -/
structure TranscriptTrack where
  language_code : String
  language : String
  is_generated : Bool
  segments : List TranscriptSegment
deriving DecidableEq

/-- The text fragment the loop body produces for one segment, without the
trailing space the code appends. -/
def segFragment : TranscriptSegment → String
  | .mappingText s => s
  | .mappingKeyMissing => "[text key missing]"
  | .attrText s => s
  | .attrFailure => "[text extraction failed]"
  | .noTextField => "[text extraction failed]"
  | .strangeTypeError _ => ""
  | .raisesOther => "[segment processing error]"

/-- One iteration of the flattening loop: `.ok` is the fragment appended
to the accumulator (including the trailing space of lines 73/78 and the
placeholder literals of lines 82/86/91/94), `.error m` is the re-raised
`TypeError` of line 88. -/
def processSegment : TranscriptSegment → Except String String
  | .mappingText s => .ok (s ++ " ")
  | .mappingKeyMissing => .ok "[text key missing] "
  | .attrText s => .ok (s ++ " ")
  | .attrFailure => .ok "[text extraction failed] "
  | .noTextField => .ok "[text extraction failed] "
  | .strangeTypeError m => .error m
  | .raisesOther => .ok "[segment processing error] "

/-- The flattening loop of lines 70-94: concatenates the per-segment
fragments in order, aborting (discarding the accumulator) when a segment
re-raises. -/
def flattenSegments : List TranscriptSegment → Except String String
  | [] => .ok ""
  | g :: rest =>
    match processSegment g with
    | .error m => .error m
    | .ok frag => (flattenSegments rest).map (fun b => frag ++ b)

/-- Models `find_manually_created_transcript(['en'])` of the external
provider: a manually created track whose language code is exactly "en". -/
def isManualEn (t : TranscriptTrack) : Bool :=
  !t.is_generated && t.language_code == "en"

/-- Models `find_generated_transcript(['en'])` of the external provider:
an auto-generated track whose language code is exactly "en". -/
def isGeneratedEn (t : TranscriptTrack) : Bool :=
  t.is_generated && t.language_code == "en"

/-- The selection cascade of lines 44-61: manual English, else generated
English, else the first track in enumeration order, else none (the
`NoTranscriptFound` raised at line 56). -/
def selectTranscript (tracks : List TranscriptTrack) : Option TranscriptTrack :=
  match tracks.find? isManualEn with
  | some t => some t
  | none =>
    match tracks.find? isGeneratedEn with
    | some t => some t
    | none => tracks.head?

/-- The `NoTranscriptFound` message of lines 100-105. -/
def noTranscriptMsg (input vid : String) : String :=
  "No transcript could be found for the video: " ++ input ++ "." ++
    (if vid = "" then "" else " (Processed Video ID: " ++ vid ++ ").") ++
    " This could be due to an incorrect video ID, the video not having any transcripts, the video being unavailable, or the requested language not being available."

/-- The generic handler of lines 111-115 for the `TypeError` re-raised
out of the flattening loop. -/
def unexpectedMsg (m vid : String) : String :=
  "An unexpected error occurred: TypeError - " ++ m ++
    (if vid = "" then "" else " (While processing Video ID: " ++ vid ++ ")")

/-- What `list_transcripts` produces for a video id: the track collection,
or one of the exceptions handled at lines 98-105. -/
inductive ListingResult where
  | tracks (ts : List TranscriptTrack)
  | disabled
  | unavailable
deriving DecidableEq

/-- Lines 44-96 of `get_youtube_transcript`, given the track collection
returned by `list_transcripts`: select a track, flatten its segments,
strip the result; empty collection yields the `NoTranscriptFound`
message, a re-raised `TypeError` yields the unexpected-error message. -/
def fetchSelected (input vid : String) (tracks : List TranscriptTrack) : String :=
  match selectTranscript tracks with
  | none => noTranscriptMsg input vid
  | some tr =>
    match flattenSegments tr.segments with
    | .ok s => pyStrip s
    | .error m => unexpectedMsg m vid

/-- The whole of `get_youtube_transcript` (lines 10-115), with the
external provider abstracted as a function from video id to listing
outcome. -/
def get_youtube_transcript (provider : String → ListingResult) (input : String) : String :=
  match extractVideoId input with
  | none => "Invalid video ID or URL format: " ++ input
  | some vid =>
    if vid = "" then "Could not extract Video ID from: " ++ input
    else
      match provider vid with
      | .disabled => "Transcripts are disabled for the video: " ++ input
      | .unavailable => noTranscriptMsg input vid
      | .tracks ts => fetchSelected input vid ts

/-- The error-indicator substrings of lines 133-137. -/
def errorIndicators : List String :=
  ["Transcripts are disabled", "No transcript", "An unexpected error occurred",
   "Could not determine", "XML ParseError", "Invalid video ID",
   "[text extraction failed]", "[text key missing]", "[segment processing error]"]

/-- The classification loop of lines 138-141: the fetched string is an
error when it starts with or contains any indicator. -/
def isErrorResult (t : String) : Bool :=
  errorIndicators.any (fun ind => pyStartsWith ind t || pyContains ind t)

/-- Injected filesystem behaviour for one request: whether the save
directory already exists, whether `os.makedirs` would fail (with an error
text), and whether the file write would fail (with an error text) even
when the directory is present.  A write into a missing directory always
fails, with a file-not-found error. -/
structure FsBehavior where
  dirExists : Bool
  mkdirErr : Option String
  writeErr : Option String
deriving DecidableEq

/-- The filename id extraction of lines 163-170 (note: it tests the bare
marker "v=", unlike the fetcher's resolver). -/
def filenameIdPart (input : String) : String :=
  if pyContains "v=" input then
    (((pySplit "&" ((pySplit "v=" input).getD 1 ""))).headD "")
  else if pyContains "youtu.be/" input then
    (((pySplit "?" ((pySplit "/" input).getLastD ""))).headD "")
  else if pyContains "youtube.com/shorts/" input then
    (((pySplit "?" ((pySplit "shorts/" input).getD 1 ""))).headD "")
  else input

/-- The sanitised id of lines 172-173: keep alphanumeric, `_`, `-`;
strip; truncate to 50; fall back to "unknown_video" when empty. -/
def safeVideoId (input : String) : String :=
  let kept := String.mk ((stripList ((filenameIdPart input).data.filter
    (fun c => c.isAlphanum || c == '_' || c == '-'))).take 50)
  if kept = "" then "unknown_video" else kept

/-- The target filename of line 175. -/
def saveFilename (input : String) : String :=
  "transcript_" ++ safeVideoId input ++ ".txt"

/-- The target path of line 176 (`os.path.join("saved_transcripts", ...)`). -/
def savePath (input : String) : String :=
  "saved_transcripts/" ++ saveFilename input

/-- The observable outcome of one POST request: the three template
variables of line 190, plus the list of file writes performed. -/
structure HandlerOutcome where
  transcript : Option String
  error : Option String
  filename : Option String
  writes : List (String × String)
deriving DecidableEq

/-- Modelled from the spec: the rendered page shows the transcript text
only when the handler passes a non-empty string for it (the Jinja
template itself is not part of the sources). -/
def rendersTranscript (o : HandlerOutcome) : Bool :=
  match o.transcript with
  | some t => !(t = "")
  | none => false

/-- The POST branch of `index` (lines 124-190).  `fetch` is
`get_youtube_transcript` (or any fetch result, for quantified claims);
`fs` is the injected filesystem behaviour. -/
def handlePost (fs : FsBehavior) (fetch : String → String) (videoInput : String) :
    HandlerOutcome :=
  if videoInput = "" then
    ⟨none, some "Please enter a YouTube Video ID or URL.", none, []⟩
  else
    let t := fetch videoInput
    if isErrorResult t then
      ⟨none, some t, none, []⟩
    else if t = "" then
      ⟨some t, some "No transcript content was generated or fetched.", none, []⟩
    else
      let dirOk := fs.dirExists || (fs.mkdirErr.isNone)
      let mkdirWarn : Option String :=
        if fs.dirExists then none
        else match fs.mkdirErr with
          | none => none
          | some e => some (" (Could not create save directory on server: " ++ e ++ ")")
      let fpath := savePath videoInput
      let writeOutcome : Option String :=
        if dirOk then fs.writeErr
        else some ("[Errno 2] No such file or directory: " ++ fpath)
      match writeOutcome with
      | none => ⟨some t, mkdirWarn, some (saveFilename videoInput), [(fpath, t)]⟩
      | some e =>
        let detail := " (Transcript fetched, but error saving to file: " ++ e ++ ")"
        let err2 : Option String :=
          match mkdirWarn with
          | some e1 => some (e1 ++ detail)
          | none => some (pyDrop1 detail)
        ⟨some t, err2, none, []⟩

/-- The segment kinds of claim C2: the segment has no retrievable text
field along the code's recognised access paths — the mapping access
raises `KeyError`, or the segment is not subscriptable and the `text`
attribute is missing or raises. -/
def textExtractionFails (g : TranscriptSegment) : Prop :=
  g = .mappingKeyMissing ∨ g = .attrFailure ∨ g = .noTextField

/-- Accumulated fragments of a segment list, in order, each with its
trailing space, as the loop concatenates them. -/
def concatFrags : List TranscriptSegment → String
  | [] => ""
  | g :: rest => (segFragment g ++ " ") ++ concatFrags rest

/-- Follows the spec's words for claim C3: join the fragments with a
single space (no trailing space). -/
def joinWithSpace : List String → String
  | [] => ""
  | [f] => f
  | f :: rest => f ++ " " ++ joinWithSpace rest

theorem isPrefixOf_extend (a : List Char) : ∀ l y : List Char,
    a.isPrefixOf l = true → a.isPrefixOf (l ++ y) = true := by
  induction a with
  | nil => intro l y _; simp [List.isPrefixOf]
  | cons c a2 ih =>
    intro l y h
    cases l with
    | nil => exact absurd h (by simp [List.isPrefixOf])
    | cons d l2 =>
      simp only [List.isPrefixOf, List.cons_append, Bool.and_eq_true] at h ⊢
      exact ⟨h.1, ih l2 y h.2⟩

theorem isPrefixOf_refl_list (a : List Char) : a.isPrefixOf a = true := by
  induction a with
  | nil => rfl
  | cons c a2 ih => simp [List.isPrefixOf, ih]

theorem isPrefixOf_self_append (a b : List Char) : a.isPrefixOf (a ++ b) = true :=
  isPrefixOf_extend a a b (isPrefixOf_refl_list a)

theorem occursAt_isSome_of_mem (sep l : List Char) (i : Nat) (hi : i < l.length + 1)
    (hp : sep.isPrefixOf (l.drop i) = true) : (occursAt sep l).isSome = true := by
  unfold occursAt
  exact List.find?_isSome.mpr ⟨i, List.mem_range.mpr hi, hp⟩

/-- Containment of an explicit middle factor. -/
theorem pyContains_mid (sub x y : String) : pyContains sub (x ++ (sub ++ y)) = true := by
  unfold pyContains
  apply occursAt_isSome_of_mem _ _ x.data.length
  · rw [String.data_append, String.data_append, List.length_append, List.length_append]
    omega
  · rw [String.data_append, String.data_append, List.drop_left]
    exact isPrefixOf_self_append _ _

/-- Containment survives prepending. -/
theorem pyContains_append_left (sub x t : String) (h : pyContains sub t = true) :
    pyContains sub (x ++ t) = true := by
  unfold pyContains at h ⊢
  obtain ⟨i, hi, hp⟩ := List.find?_isSome.mp h
  apply occursAt_isSome_of_mem _ _ (x.data.length + i)
  · rw [String.data_append, List.length_append]
    have := List.mem_range.mp hi
    omega
  · rw [String.data_append, List.drop_append]
    exact hp

/-- Containment survives appending. -/
theorem pyContains_append_right (sub t y : String) (h : pyContains sub t = true) :
    pyContains sub (t ++ y) = true := by
  unfold pyContains at h ⊢
  obtain ⟨i, hi, hp⟩ := List.find?_isSome.mp h
  have hile : i ≤ t.data.length := by
    have := List.mem_range.mp hi
    omega
  apply occursAt_isSome_of_mem _ _ i
  · rw [String.data_append, List.length_append]
    omega
  · rw [String.data_append, List.drop_append_eq_append_drop,
      Nat.sub_eq_zero_of_le hile, List.drop_zero]
    exact isPrefixOf_extend _ _ _ hp

theorem stripList_append_space (l : List Char) :
    stripList (l ++ [' ']) = stripList l := by
  unfold stripList
  rw [List.dropWhile_append]
  by_cases h : (l.dropWhile Char.isWhitespace).isEmpty
  · rw [if_pos h]
    have h2 : List.dropWhile Char.isWhitespace [' '] = ([] : List Char) := by decide
    rw [h2]
    rw [List.isEmpty_iff] at h
    rw [h]
  · rw [if_neg h]
    rw [List.reverse_append]
    have h3 : List.reverse [' '] = ([' '] : List Char) := by decide
    rw [h3]
    show (((' ' :: (l.dropWhile Char.isWhitespace).reverse)).dropWhile Char.isWhitespace).reverse = _
    rw [List.dropWhile_cons_of_pos (by decide)]

theorem pyStrip_append_space (s : String) : pyStrip (s ++ " ") = pyStrip s := by
  unfold pyStrip
  rw [String.data_append]
  have h : (" " : String).data = [' '] := rfl
  rw [h, stripList_append_space]

theorem processSegment_ok_frag (g : TranscriptSegment) (frag : String)
    (h : processSegment g = .ok frag) : frag = segFragment g ++ " " := by
  cases g <;> simp [processSegment, segFragment] at h ⊢ <;> try exact h.symm

theorem flattenSegments_append (l1 l2 : List TranscriptSegment) :
    ∀ a, flattenSegments l1 = .ok a →
      flattenSegments (l1 ++ l2) = (flattenSegments l2).map (fun b => a ++ b) := by
  induction l1 with
  | nil =>
    intro a h
    have ha : a = "" := by simpa [flattenSegments] using h.symm
    subst ha
    rw [List.nil_append]
    cases hr : flattenSegments l2 <;> rfl
  | cons g tl ih =>
    intro a h
    rw [List.cons_append]
    cases hp : processSegment g with
    | error m =>
      rw [flattenSegments, hp] at h
      exact absurd h (by simp)
    | ok frag =>
      rw [flattenSegments, hp] at h
      cases hf : flattenSegments tl with
      | error m => rw [hf] at h; exact absurd h (by simp [Except.map])
      | ok b =>
        rw [hf] at h
        simp only [Except.map] at h
        have hab : a = frag ++ b := by
          cases h; rfl
        subst hab
        rw [flattenSegments, hp, ih b hf]
        cases hl2 : flattenSegments l2 <;>
          simp [Except.map, String.append_assoc]

theorem flatten_ok_concat (segs : List TranscriptSegment) :
    ∀ s, flattenSegments segs = .ok s → s = concatFrags segs := by
  induction segs with
  | nil =>
    intro s h
    have hs : s = "" := by simpa [flattenSegments] using h.symm
    subst hs
    rfl
  | cons g tl ih =>
    intro s h
    cases hp : processSegment g with
    | error m =>
      rw [flattenSegments, hp] at h
      exact absurd h (by simp)
    | ok frag =>
      rw [flattenSegments, hp] at h
      cases hf : flattenSegments tl with
      | error m => rw [hf] at h; exact absurd h (by simp [Except.map])
      | ok b =>
        rw [hf] at h
        simp only [Except.map] at h
        have hs : s = frag ++ b := by cases h; rfl
        rw [hs, concatFrags, ih b hf, processSegment_ok_frag g frag hp]

theorem concatFrags_eq_join (segs : List TranscriptSegment) (hne : segs ≠ []) :
    concatFrags segs = joinWithSpace (segs.map segFragment) ++ " " := by
  induction segs with
  | nil => exact absurd rfl hne
  | cons g tl ih =>
    cases tl with
    | nil =>
      show (segFragment g ++ " ") ++ "" = joinWithSpace [segFragment g] ++ " "
      rw [String.append_empty]
      rfl
    | cons g2 tl2 =>
      show (segFragment g ++ " ") ++ concatFrags (g2 :: tl2) =
        joinWithSpace (segFragment g :: segFragment g2 :: tl2.map segFragment) ++ " "
      rw [ih (by simp)]
      show _ = (segFragment g ++ " " ++ joinWithSpace (segFragment g2 :: tl2.map segFragment)) ++ " "
      rw [← String.append_assoc]
      rfl


/-- Claim C4: the identifier resolver extracts the expected identifier
from each recognised URL shape — standard watch URL, shortened
youtu.be URL, and Shorts URL. -/
theorem claim_C4_url_id_extraction :
    extractVideoId "https://www.youtube.com/watch?v=abc123XYZ_-&t=10s" = some "abc123XYZ_-" ∧
    extractVideoId "https://youtu.be/abc123XYZ_-?si=xyz" = some "abc123XYZ_-" ∧
    extractVideoId "https://www.youtube.com/shorts/abc123XYZ_-?feature=share" = some "abc123XYZ_-" :=
  ⟨by decide, by decide, by decide⟩

/-- Claim C5: an input containing none of the three URL markers is
returned unchanged when it is exactly 11 characters over the allowed
charset, and otherwise produces the invalid-format message carrying the
input verbatim. -/
theorem claim_C5_bare_id_rule (s : String)
    (h1 : pyContains "youtube.com/watch?v=" s = false)
    (h2 : pyContains "youtu.be/" s = false)
    (h3 : pyContains "youtube.com/shorts/" s = false) :
    (isPlausibleId s = true → extractVideoId s = some s) ∧
    (isPlausibleId s = false →
      ∀ pr : String → ListingResult,
        get_youtube_transcript pr s = "Invalid video ID or URL format: " ++ s) := by
  constructor
  · intro hp
    simp [extractVideoId, h1, h2, h3, hp]
  · intro hp pr
    simp [get_youtube_transcript, extractVideoId, h1, h2, h3, hp]

/-- Witness for claim C5 at the inputs "abc123XYZ_-" (valid bare id) and
"not a valid id!!" (invalid input). -/
theorem claim_C5_bare_id_rule_witness :
    extractVideoId "abc123XYZ_-" = some "abc123XYZ_-" ∧
    get_youtube_transcript (fun _ => .disabled) "not a valid id!!" =
      "Invalid video ID or URL format: not a valid id!!" := by
  constructor
  · exact (claim_C5_bare_id_rule "abc123XYZ_-" (by decide) (by decide) (by decide)).1 (by decide)
  · exact ((claim_C5_bare_id_rule "not a valid id!!" (by decide) (by decide)
      (by decide)).2 (by decide) _).trans (by decide)

/-- Claim C6: the URL branches of the resolver perform no validation of
the extracted substring — here a watch URL yields the 5-character id
"bad!!", which violates the 11-character/allowed-charset rule, yet the
fetch proceeds with it and returns the transcript. -/
theorem claim_C6_url_branches_skip_validation :
    isPlausibleId "bad!!" = false ∧
    extractVideoId "https://www.youtube.com/watch?v=bad!!&t=1s" = some "bad!!" ∧
    get_youtube_transcript
      (fun _ => .tracks [⟨"en", "English", false, [.mappingText "hello"]⟩])
      "https://www.youtube.com/watch?v=bad!!&t=1s" = "hello" :=
  ⟨by decide, by decide, by decide⟩

/-- Claim C1: the track selection follows the fixed preference order —
manual English if one exists, else auto-generated English if one exists,
else the first track in enumeration order, and the empty collection
yields the NoTranscriptFound message; a lone Spanish auto-generated
track is selected and its flattened text returned. -/
theorem claim_C1_selection_preference (tracks : List TranscriptTrack) :
    ((∃ t ∈ tracks, isManualEn t = true) →
      ∃ t, selectTranscript tracks = some t ∧
        t.is_generated = false ∧ t.language_code = "en") ∧
    ((∀ t ∈ tracks, isManualEn t = false) → (∃ t ∈ tracks, isGeneratedEn t = true) →
      ∃ t, selectTranscript tracks = some t ∧
        t.is_generated = true ∧ t.language_code = "en") ∧
    ((∀ t ∈ tracks, isManualEn t = false ∧ isGeneratedEn t = false) →
      selectTranscript tracks = tracks.head?) ∧
    (∀ input vid, fetchSelected input vid [] = noTranscriptMsg input vid) ∧
    (∀ tr, tracks = [tr] → tr.is_generated = true → tr.language_code = "es" →
      selectTranscript tracks = some tr ∧
      ∀ s, flattenSegments tr.segments = .ok s →
        ∀ input vid, fetchSelected input vid tracks = pyStrip s) := by
  refine ⟨?_, ?_, ?_, ?_, ?_⟩
  · rintro ⟨t, ht, hm⟩
    obtain ⟨u, hu⟩ := Option.isSome_iff_exists.mp
      (List.find?_isSome.mpr ⟨t, ht, hm⟩)
    have hum : isManualEn u = true := List.find?_some hu
    refine ⟨u, by simp [selectTranscript, hu], ?_, ?_⟩
    · have := (Bool.and_eq_true _ _).mp hum
      simpa [isManualEn] using this.1
    · have := (Bool.and_eq_true _ _).mp hum
      simpa [isManualEn] using this.2
  · rintro hnone ⟨t, ht, hg⟩
    have hm : tracks.find? isManualEn = none :=
      List.find?_eq_none.mpr (fun x hx => by simp [hnone x hx])
    obtain ⟨u, hu⟩ := Option.isSome_iff_exists.mp
      (List.find?_isSome.mpr ⟨t, ht, hg⟩)
    have hug : isGeneratedEn u = true := List.find?_some hu
    refine ⟨u, by simp [selectTranscript, hm, hu], ?_, ?_⟩
    · have := (Bool.and_eq_true _ _).mp hug
      simpa [isGeneratedEn] using this.1
    · have := (Bool.and_eq_true _ _).mp hug
      simpa [isGeneratedEn] using this.2
  · intro hnone
    have hm : tracks.find? isManualEn = none :=
      List.find?_eq_none.mpr (fun x hx => by simp [(hnone x hx).1])
    have hg : tracks.find? isGeneratedEn = none :=
      List.find?_eq_none.mpr (fun x hx => by simp [(hnone x hx).2])
    simp [selectTranscript, hm, hg]
  · intro input vid
    rfl
  · intro tr htr hgen hcode
    subst htr
    have hsel : selectTranscript [tr] = some tr := by
      simp [selectTranscript, List.find?, isManualEn, isGeneratedEn, hgen, hcode]
    refine ⟨hsel, ?_⟩
    intro s hs input vid
    simp [fetchSelected, hsel, hs]

/-- Witness for claim C1: a provider with a single Spanish auto-generated
track; its flattened text is returned. -/
theorem claim_C1_selection_preference_witness :
    selectTranscript [⟨"es", "Spanish", true, [.mappingText "hola", .mappingText "mundo"]⟩] =
      some ⟨"es", "Spanish", true, [.mappingText "hola", .mappingText "mundo"]⟩ ∧
    fetchSelected "vid-input" "abc123XYZ_-"
      [⟨"es", "Spanish", true, [.mappingText "hola", .mappingText "mundo"]⟩] = "hola mundo" := by
  have H := (claim_C1_selection_preference
    [⟨"es", "Spanish", true, [.mappingText "hola", .mappingText "mundo"]⟩]).2.2.2.2
    ⟨"es", "Spanish", true, [.mappingText "hola", .mappingText "mundo"]⟩ rfl rfl rfl
  refine ⟨H.1, ?_⟩
  exact (H.2 "hola mundo " rfl "vid-input" "abc123XYZ_-").trans (by decide)

/-- Claim C2: a segment whose text cannot be extracted (mapping access
raises KeyError, or the segment is not subscriptable and the text
attribute is missing or raises) contributes exactly one placeholder
fragment — "[text extraction failed] " or "[text key missing] " — at its
position, and flattening continues over all subsequent segments instead
of aborting. -/
theorem claim_C2_bad_segment_placeholder (g : TranscriptSegment)
    (hg : textExtractionFails g) :
    processSegment g = .ok (segFragment g ++ " ") ∧
    (segFragment g ++ " " = "[text extraction failed] " ∨
      segFragment g ++ " " = "[text key missing] ") ∧
    (∀ pre post a, flattenSegments pre = .ok a →
      flattenSegments (pre ++ g :: post) =
        (flattenSegments post).map (fun b => a ++ ((segFragment g ++ " ") ++ b))) := by
  have hp : processSegment g = .ok (segFragment g ++ " ") := by
    rcases hg with h | h | h <;> subst h <;> rfl
  refine ⟨hp, ?_, ?_⟩
  · rcases hg with h | h | h <;> subst h
    · exact Or.inr (by decide)
    · exact Or.inl (by decide)
    · exact Or.inl (by decide)
  · intro pre post a ha
    rw [flattenSegments_append pre (g :: post) a ha]
    show (flattenSegments (g :: post)).map (fun b => a ++ b) = _
    rw [flattenSegments, hp]
    cases hq : flattenSegments post <;> rfl

/-- Witness for claim C2: a missing-text-key segment between two good
segments yields its placeholder in place and the tail is still
processed. -/
theorem claim_C2_bad_segment_placeholder_witness :
    flattenSegments [.mappingText "a", .mappingKeyMissing, .mappingText "b"] =
      .ok "a [text key missing] b " := by
  have H := (claim_C2_bad_segment_placeholder .mappingKeyMissing (Or.inl rfl)).2.2
    [TranscriptSegment.mappingText "a"] [TranscriptSegment.mappingText "b"] "a " rfl
  exact H.trans rfl

/-- Claim C3: when flattening completes, the stripped result equals the
fragments joined with a single space and then trimmed, and the
TranscriptResult produced for a selected track is exactly that joined
and trimmed string. -/
theorem claim_C3_flatten_is_join_trim (segs : List TranscriptSegment) (s : String)
    (h : flattenSegments segs = .ok s) :
    pyStrip s = pyStrip (joinWithSpace (segs.map segFragment)) ∧
    (∀ tracks tr, selectTranscript tracks = some tr → tr.segments = segs →
      ∀ input vid, fetchSelected input vid tracks =
        pyStrip (joinWithSpace (segs.map segFragment))) := by
  have key : pyStrip s = pyStrip (joinWithSpace (segs.map segFragment)) := by
    rw [flatten_ok_concat segs s h]
    cases segs with
    | nil => rfl
    | cons g tl =>
      rw [concatFrags_eq_join _ (by simp)]
      exact pyStrip_append_space _
  refine ⟨key, ?_⟩
  intro tracks tr hsel hsegs input vid
  rw [← key]
  rw [← hsegs] at h
  simp [fetchSelected, hsel, h]

/-- Witness for claim C3 on a concrete three-segment list including a
placeholder segment. -/
theorem claim_C3_flatten_is_join_trim_witness :
    pyStrip "x [text extraction failed] y " =
      pyStrip (joinWithSpace ["x", "[text extraction failed]", "y"]) := by
  have H := (claim_C3_flatten_is_join_trim
    [.mappingText "x", .noTextField, .mappingText "y"]
    "x [text extraction failed] y " rfl).1
  exact H

/-- Claim C7: any fetch result containing one of the error-indicator
substrings is classified as an error — it becomes the error message, the
transcript is cleared and nothing is saved; a legitimate transcript that
happens to contain such a substring is misclassified the same way. -/
theorem claim_C7_substring_misclassification :
    (∀ fs fetch input, input ≠ "" → isErrorResult (fetch input) = true →
      handlePost fs fetch input = ⟨none, some (fetch input), none, []⟩) ∧
    (get_youtube_transcript
        (fun _ => .tracks [⟨"en", "English", false,
          [.mappingText "Step 1: No transcript needed"]⟩]) "abc123XYZ_-" =
      "Step 1: No transcript needed" ∧
     isErrorResult "Step 1: No transcript needed" = true ∧
     handlePost ⟨true, none, none⟩
       (get_youtube_transcript
         (fun _ => .tracks [⟨"en", "English", false,
           [.mappingText "Step 1: No transcript needed"]⟩])) "abc123XYZ_-" =
       ⟨none, some "Step 1: No transcript needed", none, []⟩) := by
  constructor
  · intro fs fetch input h he
    simp [handlePost, h, he]
  · exact ⟨by decide, by decide, by decide⟩

/-- Witness for claim C7 at a concrete error string. -/
theorem claim_C7_substring_misclassification_witness :
    handlePost ⟨true, none, none⟩ (fun _ => "No transcript") "abc123XYZ_-" =
      ⟨none, some "No transcript", none, []⟩ :=
  claim_C7_substring_misclassification.1 ⟨true, none, none⟩
    (fun _ => "No transcript") "abc123XYZ_-" (by decide) (by decide)

/-- Claim C8: a successfully classified fetch saves the transcript under
`saved_transcripts/transcript_<sanitized id>.txt` with content exactly
the fetched (already trimmed) text, whether or not the save directory
already existed. -/
theorem claim_C8_save_on_success (fs : FsBehavior) (fetch : String → String) (input : String)
    (h0 : input ≠ "") (h1 : isErrorResult (fetch input) = false) (h2 : fetch input ≠ "")
    (h3 : fs.dirExists = true ∨ fs.mkdirErr = none) (h4 : fs.writeErr = none) :
    handlePost fs fetch input =
      ⟨some (fetch input), none, some (saveFilename input),
        [("saved_transcripts/" ++ saveFilename input, fetch input)]⟩ ∧
    saveFilename input = "transcript_" ++ safeVideoId input ++ ".txt" := by
  cases fs with
  | mk de me we =>
    constructor
    · subst h4
      rcases h3 with h3 | h3 <;> subst h3 <;>
        simp [handlePost, h0, h1, h2, savePath]
    · rfl

/-- Witness for claim C8: the directory does not pre-exist, creation and
write succeed. -/
theorem claim_C8_save_on_success_witness :
    handlePost ⟨false, none, none⟩ (fun _ => "hello world") "abc123XYZ_-" =
      ⟨some "hello world", none, some "transcript_abc123XYZ_-.txt",
        [("saved_transcripts/transcript_abc123XYZ_-.txt", "hello world")]⟩ :=
  ((claim_C8_save_on_success ⟨false, none, none⟩ (fun _ => "hello world") "abc123XYZ_-"
    (by decide) (by decide) (by decide) (Or.inr rfl) rfl).1).trans (by decide)

theorem pyDrop1_save_warning (e : String) :
    pyDrop1 (" (Transcript fetched, but error saving to file: " ++ e ++ ")") =
      "(Transcript fetched, but error saving to file: " ++ e ++ ")" := by
  cases e with
  | mk le => rfl

/-- Claim C9: when directory creation or the file write fails, the
fetched transcript is still rendered, the filename confirmation is
suppressed, and the error message carries the file-saving warning. -/
theorem claim_C9_fs_failure_preserves_transcript (fs : FsBehavior) (fetch : String → String)
    (input : String) (h0 : input ≠ "") (h1 : isErrorResult (fetch input) = false)
    (h2 : fetch input ≠ "")
    (h3 : (fs.dirExists = false ∧ fs.mkdirErr ≠ none) ∨ fs.writeErr ≠ none) :
    (handlePost fs fetch input).transcript = some (fetch input) ∧
    (handlePost fs fetch input).filename = none ∧
    ∃ m, (handlePost fs fetch input).error = some m ∧
      pyContains "Transcript fetched, but error saving to file" m = true := by
  obtain ⟨de, me, we⟩ := fs
  by_cases hde : de = true
  · subst hde
    have hwe : we ≠ none := by
      rcases h3 with ⟨hfalse, _⟩ | hwe
      · exact absurd hfalse (by simp)
      · exact hwe
    cases we with
    | none => exact absurd rfl hwe
    | some e =>
      have hout : handlePost ⟨true, me, some e⟩ fetch input =
          ⟨some (fetch input),
            some (pyDrop1 (" (Transcript fetched, but error saving to file: " ++ e ++ ")")),
            none, []⟩ := by
        simp [handlePost, h0, h1, h2]
      rw [hout]
      refine ⟨rfl, rfl, _, rfl, ?_⟩
      rw [pyDrop1_save_warning]
      exact pyContains_append_right _ _ _
        (pyContains_append_right _ _ _ (by decide))
  · have hde2 : de = false := by
      cases de
      · rfl
      · exact absurd rfl hde
    subst hde2
    cases me with
    | none =>
      have hwe : we ≠ none := by
        rcases h3 with ⟨_, hfalse⟩ | hwe
        · exact absurd rfl hfalse
        · exact hwe
      cases we with
      | none => exact absurd rfl hwe
      | some e =>
        have hout : handlePost ⟨false, none, some e⟩ fetch input =
            ⟨some (fetch input),
              some (pyDrop1 (" (Transcript fetched, but error saving to file: " ++ e ++ ")")),
              none, []⟩ := by
          simp [handlePost, h0, h1, h2]
        rw [hout]
        refine ⟨rfl, rfl, _, rfl, ?_⟩
        rw [pyDrop1_save_warning]
        exact pyContains_append_right _ _ _
          (pyContains_append_right _ _ _ (by decide))
    | some em =>
      have hout : handlePost ⟨false, some em, we⟩ fetch input =
          ⟨some (fetch input),
            some ((" (Could not create save directory on server: " ++ em ++ ")") ++
              (" (Transcript fetched, but error saving to file: " ++
                ("[Errno 2] No such file or directory: " ++ savePath input) ++ ")")),
            none, []⟩ := by
        simp [handlePost, h0, h1, h2]
      rw [hout]
      refine ⟨rfl, rfl, _, rfl, ?_⟩
      apply pyContains_append_left
      exact pyContains_append_right _ _ _
        (pyContains_append_right _ _ _ (by decide))

/-- Witness for claim C9: write failure with the directory present. -/
theorem claim_C9_fs_failure_preserves_transcript_witness :
    (handlePost ⟨true, none, some "disk full"⟩ (fun _ => "hello") "abc123XYZ_-").transcript =
      some "hello" ∧
    (handlePost ⟨true, none, some "disk full"⟩ (fun _ => "hello") "abc123XYZ_-").filename =
      none ∧
    ∃ m, (handlePost ⟨true, none, some "disk full"⟩ (fun _ => "hello") "abc123XYZ_-").error =
      some m ∧ pyContains "Transcript fetched, but error saving to file" m = true :=
  claim_C9_fs_failure_preserves_transcript ⟨true, none, some "disk full"⟩
    (fun _ => "hello") "abc123XYZ_-" (by decide) (by decide) (by decide)
    (Or.inr (by simp))

/-- Claim C10: an empty fetch result — e.g. from a selected track with
zero segments — is reported as "No transcript content was generated or
fetched.", with no transcript rendered and no file written. -/
theorem claim_C10_empty_result_is_error (fs : FsBehavior) (input : String)
    (h : input ≠ "") :
    handlePost fs (fun _ => "") input =
      ⟨some "", some "No transcript content was generated or fetched.", none, []⟩ ∧
    rendersTranscript (handlePost fs (fun _ => "") input) = false ∧
    get_youtube_transcript (fun _ => .tracks [⟨"en", "English", false, []⟩])
      "abc123XYZ_-" = "" := by
  have hempty : isErrorResult "" = false := by decide
  have hout : handlePost fs (fun _ => "") input =
      ⟨some "", some "No transcript content was generated or fetched.", none, []⟩ := by
    simp [handlePost, h, hempty]
  refine ⟨hout, ?_, by decide⟩
  rw [hout]
  rfl

/-- Witness for claim C10 at a concrete non-empty input. -/
theorem claim_C10_empty_result_is_error_witness :
    handlePost ⟨true, none, none⟩ (fun _ => "") "abc123XYZ_-" =
      ⟨some "", some "No transcript content was generated or fetched.", none, []⟩ ∧
    rendersTranscript (handlePost ⟨true, none, none⟩ (fun _ => "") "abc123XYZ_-") = false :=
  ⟨(claim_C10_empty_result_is_error ⟨true, none, none⟩ "abc123XYZ_-" (by decide)).1,
   (claim_C10_empty_result_is_error ⟨true, none, none⟩ "abc123XYZ_-" (by decide)).2.1⟩
